import Mathlib

/-!
# shoesdb: a shallow embedding of `shoesdb.go`

The package translates typed calls into SQL statements that it hands to a
capability (`Execer`, `Queryer`, `Rower`).  The capabilities are Go interfaces,
so they are embedded as records of state-passing functions over an arbitrary
world state `σ`.  Every call the package makes on a capability, and every
record it writes through `logErr`, is appended to an explicit trace of
`Event`s, so that "invoked exactly once", "never invoked", "logged" and
"closed last" become statements about that trace.

Go `int` is taken to be 64 bits wide (`int64` always is); conversions between
the two are written out as `toInt` / `toInt64`.
-/

namespace shoesdb

/-! ## Data model -/

/-- Go `error` values met by the package.  The first three are the package's
own sentinels (`shoesdb.go` lines 15-19), the next two are the sentinels of the
test file, and `store` stands for any error produced behind a capability. -/
inductive GoError where
  | ErrZeroShoes
  | ErrZeroTrueToSizes
  | ErrIdentifierInvalidType
  | ErrDestLenNotEqualRowLen
  | ErrInvalidDestination
  | store (msg : String)
  deriving DecidableEq, Repr

/-- A Go `interface{}` value, tagged with its dynamic type.  `float64` carries
the IEEE-754 bit pattern; `other` covers every remaining dynamic type by its
type name and `nil` is the nil interface. -/
inductive Value where
  | int (n : Int)
  | string (s : String)
  | float64 (bits : Nat)
  | other (typeName : String)
  | nil
  deriving DecidableEq, Repr

/-- A destination handed to `Scan`: a `*int`, or a pointer of another type. -/
inductive Dest where
  | intPtr
  | otherPtr (typeName : String)
  deriving DecidableEq, Repr

/-- One observable action of the package: a call on a capability, or a record
written through `logErr.Println`. -/
inductive Event where
  | exec (query : String) (args : List Value)
  | rowsAffected
  | query (query : String) (args : List Value)
  | next
  | scan (dest : List Dest)
  | err
  | close
  | log (e : GoError)
  deriving DecidableEq, Repr

/-- Signed wrap-around of an integer to `w` bits. -/
def wrapSigned (w : Nat) (x : Int) : Int :=
  (x + 2 ^ (w - 1)) % 2 ^ w - 2 ^ (w - 1)

/-- The conversion `int64(x)`. -/
def toInt64 (x : Int) : Int := wrapSigned 64 x

/-- The conversion `int(x)`, with a 64-bit `int`. -/
def toInt (x : Int) : Int := wrapSigned 64 x

/-- The Go type `sql.Result`, over the world state `σ`. -/
structure SqlResult (σ : Type) where
  LastInsertId : σ → Except GoError Int × σ
  RowsAffected : σ → Except GoError Int × σ

/-- The Go type `Execer` (line 49). -/
structure Execer (σ : Type) where
  Exec : String → List Value → σ → Except GoError (SqlResult σ) × σ

/-- What a `Scan` call leaves behind: its error, and the value it stored in the
single `*int` destination, if it stored one. -/
structure ScanOut where
  err : Option GoError
  stored : Option Int
  deriving DecidableEq, Repr

/-- The Go type `Rower` (line 57). -/
structure Rower (σ : Type) where
  Close : σ → Option GoError × σ
  Err : σ → Option GoError × σ
  Next : σ → Bool × σ
  Scan : List Dest → σ → ScanOut × σ

/-- The Go type `Queryer` (line 53).  A `Query` that reports no error hands
back a cursor; the pair (nil, nil) is not represented. -/
structure Queryer (σ : Type) where
  Query : String → List Value → σ → Except GoError (Rower σ) × σ

/-- The observable outcome of one call: the returned pair (`none` while the
row loop has not finished within the given fuel), the world state the
capabilities are left in, and the events of the call in order. -/
structure Outcome (α σ : Type) where
  result : Option (α × Option GoError)
  world : σ
  trace : List Event

/-- The function `strings.Join`. -/
def stringsJoin (elems : List String) (sep : String) : String :=
  sep.intercalate elems

/-! ## Operations -/

/-- The function `InsertShoes` (lines 66-99). -/
def InsertShoes {σ : Type} (db : Execer σ) (shoes : List String) (s : σ) : Outcome Int σ :=
  if shoes.length = 0 then
    { result := some (0, some GoError.ErrZeroShoes), world := s,
      trace := [Event.log GoError.ErrZeroTrueToSizes] }
  else
    -- write query string
    let query := "INSERT INTO shoes (name) VALUES"
    let values := List.replicate shoes.length "(?)"
    let _ := stringsJoin values ","
    let query := query ++ ";"
    -- convert []string to []interface{}
    let iShoes := shoes.map Value.string
    match db.Exec query iShoes s with
    | (Except.error err, s1) =>
      { result := some (0, some err), world := s1,
        trace := [Event.exec query iShoes, Event.log err] }
    | (Except.ok res, s1) =>
      match res.RowsAffected s1 with
      | (Except.error err, s2) =>
        { result := some (0, some err), world := s2,
          trace := [Event.exec query iShoes, Event.rowsAffected, Event.log err] }
      | (Except.ok aff, s2) =>
        { result := some (toInt aff, none), world := s2,
          trace := [Event.exec query iShoes, Event.rowsAffected] }

/-- The function `InsertTrueToSizes` (lines 103-136). -/
def InsertTrueToSizes {σ : Type} (db : Execer σ) (trueToSizes : List Int) (s : σ) :
    Outcome Int σ :=
  if trueToSizes.length = 0 then
    { result := some (0, some GoError.ErrZeroTrueToSizes), world := s,
      trace := [Event.log GoError.ErrZeroTrueToSizes] }
  else
    -- write query string
    let query := "INSERT INTO truetosize (truetosize) VALUES"
    let values := List.replicate trueToSizes.length "(?)"
    let _ := stringsJoin values ","
    let query := query ++ ";"
    -- convert []int to []interface{}
    let iTrueToSizes := trueToSizes.map Value.int
    match db.Exec query iTrueToSizes s with
    | (Except.error err, s1) =>
      { result := some (0, some err), world := s1,
        trace := [Event.exec query iTrueToSizes, Event.log err] }
    | (Except.ok res, s1) =>
      match res.RowsAffected s1 with
      | (Except.error err, s2) =>
        { result := some (0, some err), world := s2,
          trace := [Event.exec query iTrueToSizes, Event.rowsAffected, Event.log err] }
      | (Except.ok aff, s2) =>
        { result := some (toInt aff, none), world := s2,
          trace := [Event.exec query iTrueToSizes, Event.rowsAffected] }

/-- The statement text `SelectTrueToSize` starts from (lines 142-143). -/
def selectBase : String := "SELECT t.truetosize\n\t\t  FROM truetosize t"

/-- The text appended for an `int` identifier (line 146). -/
def selectByIdTail : String := "WHERE shoes_id = ?"

/-- The text appended for a `string` identifier (lines 148-150). -/
def selectByNameTail : String :=
  "INNER JOIN shoes s\n\t\t\t  ON (t.shoes_id = s.id)\n\t\t\t  WHERE s.name = ?;"

/-- The row loop of `SelectTrueToSize` (lines 164-176): one unit of fuel per
call of `Next`.  The events of an iteration precede those of the rest. -/
def scanLoop {σ : Type} (rows : Rower σ) : Nat → σ → List Int → Outcome (Option (List Int)) σ
  | 0, s, _ => { result := none, world := s, trace := [] }
  | fuel + 1, s, ttsSet =>
    match rows.Next s with
    | (true, s1) =>
      let truetosize : Int := 0
      match rows.Scan [Dest.intPtr] s1 with
      | (⟨some err, _⟩, s2) =>
        { result := some (none, some err), world := s2,
          trace := [Event.next, Event.scan [Dest.intPtr], Event.log err] }
      | (⟨none, stored⟩, s2) =>
        let truetosize := stored.getD truetosize
        let rest := scanLoop rows fuel s2 (ttsSet ++ [truetosize])
        { rest with trace := Event.next :: Event.scan [Dest.intPtr] :: rest.trace }
    | (false, s1) =>
      match rows.Err s1 with
      | (some err, s2) =>
        { result := some (none, some err), world := s2,
          trace := [Event.next, Event.err, Event.log err] }
      | (none, s2) =>
        { result := some (some ttsSet, none), world := s2,
          trace := [Event.next, Event.err] }

/-- The deferred `rows.Close()` (line 161): it runs when the call returns, and
its error is dropped. -/
def deferClose {σ : Type} (rows : Rower σ) (out : Outcome (Option (List Int)) σ) :
    Outcome (Option (List Int)) σ :=
  match out.result with
  | none => out
  | some _ => { out with world := (rows.Close out.world).2, trace := out.trace ++ [Event.close] }

/-- The statement selection of `SelectTrueToSize` (lines 142-154): the text for
an `int` or a `string` identifier, `none` for every other dynamic type. -/
def statementFor (identifier : Value) : Option String :=
  let query := selectBase
  match identifier with
  | Value.int _ => some (query ++ selectByIdTail)
  | Value.string _ => some (query ++ selectByNameTail)
  | _ => none

/-- The function `SelectTrueToSize` (lines 141-177).  A nil slice is `none`. -/
def SelectTrueToSize {σ : Type} (fuel : Nat) (db : Queryer σ) (identifier : Value) (s : σ) :
    Outcome (Option (List Int)) σ :=
  match statementFor identifier with
  | none =>
    { result := some (none, some GoError.ErrIdentifierInvalidType), world := s,
      trace := [Event.log GoError.ErrIdentifierInvalidType] }
  | some query =>
    match db.Query query [identifier] s with
    | (Except.error err, s1) =>
      { result := some (none, some err), world := s1,
        trace := [Event.query query [identifier], Event.log err] }
    | (Except.ok rows, s1) =>
      let out := deferClose rows (scanLoop rows fuel s1 [])
      { out with trace := Event.query query [identifier] :: out.trace }

/-! ## The test doubles of `shoesdb_test.go` -/

/-- The type `mockSqlResult` (lines 132-138). -/
def mockSqlResult {σ : Type} (lastID rowsAff : Int) : SqlResult σ :=
  { LastInsertId := fun s => (Except.ok lastID, s),
    RowsAffected := fun s => (Except.ok rowsAff, s) }

/-- The type `mockExecer` (lines 125-129): one affected row per argument. -/
def mockExecer : Execer Unit :=
  { Exec := fun _ args s => (Except.ok (mockSqlResult 0 (toInt64 (args.length : Int))), s) }

/-- The variable `defTrueToSizeSet` (line 151). -/
def defTrueToSizeSet : List Int := [1, 3, 4, 1]

/-- The fields of `mockRowerInt` (lines 154-158). -/
structure MockRowerInt where
  err : Option GoError
  rows : List Int
  thisRow : Int
  deriving DecidableEq, Repr

/-- The methods of `mockRowerInt` (lines 160-189). -/
def mockRowerInt : Rower MockRowerInt :=
  { Err := fun r => (r.err, r),
    Close := fun r => (none, r),
    Next := fun r =>
      match r.rows with
      | [] => (false, r)
      | x :: rest => (true, { r with thisRow := x, rows := rest }),
    Scan := fun iDest r =>
      if iDest.length ≠ 1 then
        (⟨some GoError.ErrDestLenNotEqualRowLen, none⟩,
          { r with err := some GoError.ErrDestLenNotEqualRowLen })
      else
        match iDest with
        | [Dest.intPtr] => (⟨none, some r.thisRow⟩, r)
        | _ => (⟨some GoError.ErrInvalidDestination, none⟩, r) }

/-- The type `mockQueryer` (lines 141-148): every query gets a fresh cursor over
a copy of `defTrueToSizeSet`. -/
def mockQueryer : Queryer MockRowerInt :=
  { Query := fun _ _ _ =>
      (Except.ok mockRowerInt, { err := none, rows := defTrueToSizeSet, thisRow := 0 }) }

/-! ## Further doubles, used to exercise the failure paths -/

/-- A write capability whose `Exec` always fails with `e`. -/
def failingExecer (e : GoError) : Execer Unit :=
  { Exec := fun _ _ s => (Except.error e, s) }

/-- A write capability whose `Exec` succeeds and whose result fails to report
its affected rows, with `e`. -/
def failingResultExecer (e : GoError) : Execer Unit :=
  { Exec := fun _ _ s =>
      (Except.ok { LastInsertId := fun t => (Except.error e, t),
                   RowsAffected := fun t => (Except.error e, t) }, s) }

/-- A read capability whose `Query` always fails with `e`. -/
def failingQueryer (e : GoError) : Queryer Unit :=
  { Query := fun _ _ s => (Except.error e, s) }

/-- The memory of a scripted cursor: the rows still to come (each decodes to a
value or fails), the error `Err` reports at the end, the row `Next` moved to,
and a counter of the `Close` calls received. -/
structure Script where
  pending : List (Except GoError Int)
  final : Option GoError
  current : Option (Except GoError Int)
  released : Nat

/-- A cursor that plays a `Script` and counts its releases. -/
def scriptRower : Rower Script :=
  { Close := fun c => (none, { c with released := c.released + 1 }),
    Err := fun c => (c.final, c),
    Next := fun c =>
      match c.pending with
      | [] => (false, c)
      | x :: rest => (true, { c with pending := rest, current := some x }),
    Scan := fun _ c =>
      match c.current with
      | some (Except.ok v) => (⟨none, some v⟩, c)
      | some (Except.error e) => (⟨some e, none⟩, c)
      | none => (⟨some GoError.ErrInvalidDestination, none⟩, c) }

/-- A cursor without rows over the unit world. -/
def emptyRower : Rower Unit :=
  { Close := fun c => (none, c), Err := fun c => (none, c), Next := fun c => (false, c),
    Scan := fun _ c => (⟨none, none⟩, c) }

/-- A read capability that hands out `scriptRower` and leaves the script as it
finds it. -/
def scriptQueryer : Queryer Script :=
  { Query := fun _ _ c => (Except.ok scriptRower, c) }

/-! ## Vocabulary of the specification -/

/-- How the iteration over a cursor ends. -/
inductive Ending where
  | done
  | scanFailed (e : GoError)
  | iterFailed (e : GoError)
  deriving DecidableEq, Repr

/-- The failure an ending carries. -/
def Ending.failure : Ending → Option GoError
  | Ending.done => none
  | Ending.scanFailed e => some e
  | Ending.iterFailed e => some e

/-- The relation `Yields rows s rs en t`: driven from state `s` by alternating
`Next` and `Scan` on one `*int` destination, the cursor decodes the values
`rs` in this order (the value of a row is what its `Scan` leaves in the
zero-initialised destination), then ends as `en` says, in state `t`. -/
inductive Yields {σ : Type} (rows : Rower σ) : σ → List Int → Ending → σ → Prop where
  | done {s s1 s2 : σ} :
      rows.Next s = (false, s1) → rows.Err s1 = (none, s2) →
      Yields rows s [] Ending.done s2
  | iterFailed {s s1 s2 : σ} {e : GoError} :
      rows.Next s = (false, s1) → rows.Err s1 = (some e, s2) →
      Yields rows s [] (Ending.iterFailed e) s2
  | scanFailed {s s1 s2 : σ} {e : GoError} {st : Option Int} :
      rows.Next s = (true, s1) → rows.Scan [Dest.intPtr] s1 = (⟨some e, st⟩, s2) →
      Yields rows s [] (Ending.scanFailed e) s2
  | row {s s1 s2 s3 : σ} {st : Option Int} {rs : List Int} {en : Ending} :
      rows.Next s = (true, s1) → rows.Scan [Dest.intPtr] s1 = (⟨none, st⟩, s2) →
      Yields rows s2 rs en s3 →
      Yields rows s (st.getD 0 :: rs) en s3

/-- The cursor events of an iteration that decodes `n` rows and then ends as
`en`, followed by the log record of its failure, if any. -/
def loopTrace : Nat → Ending → List Event
  | 0, Ending.done => [Event.next, Event.err]
  | 0, Ending.iterFailed e => [Event.next, Event.err, Event.log e]
  | 0, Ending.scanFailed e => [Event.next, Event.scan [Dest.intPtr], Event.log e]
  | n + 1, en => Event.next :: Event.scan [Dest.intPtr] :: loopTrace n en

/-- The pair an iteration returns: the rows when it ends well, else nil and the
failure. -/
def loopResult (rs : List Int) : Ending → Option (List Int) × Option GoError
  | Ending.done => (some rs, none)
  | Ending.scanFailed e => (none, some e)
  | Ending.iterFailed e => (none, some e)

/-- The records written through `logErr`, in order. -/
def logged : List Event → List GoError
  | [] => []
  | Event.log e :: rest => e :: logged rest
  | _ :: rest => logged rest

/-- The failure a call returned, as a list: empty when it returned none, or has
not returned. -/
def returnedFailure {α σ : Type} (out : Outcome α σ) : List GoError :=
  match out.result with
  | some (_, some e) => [e]
  | _ => []

/-- The `Exec` calls of a trace, in order. -/
def execCalls : List Event → List (String × List Value)
  | [] => []
  | Event.exec q args :: rest => (q, args) :: execCalls rest
  | _ :: rest => execCalls rest

/-- The `Query` calls of a trace, in order. -/
def queryCalls : List Event → List (String × List Value)
  | [] => []
  | Event.query q args :: rest => (q, args) :: queryCalls rest
  | _ :: rest => queryCalls rest

/-- The number of `Close` calls in a trace. -/
def closeCount : List Event → Nat
  | [] => 0
  | Event.close :: rest => closeCount rest + 1
  | _ :: rest => closeCount rest

/-- Whether an event is a call on the cursor other than `Close`. -/
def isCursorUse : Event → Bool
  | Event.next => true
  | Event.scan _ => true
  | Event.err => true
  | _ => false

/-- Whether `part` occurs in `text` as a contiguous run of characters. -/
def occursIn (part text : String) : Bool :=
  text.toList.tails.any (fun t => part.toList.isPrefixOf t)

/-- Whether `text` ends with `part`. -/
def endsWith (part text : String) : Bool :=
  part.toList.isSuffixOf text.toList

/-- The number of positions of `text` at which `part` starts. -/
def occurrences (part text : String) : Nat :=
  (text.toList.tails.filter (fun t => part.toList.isPrefixOf t)).length

/-- The statement text `InsertShoes` hands to `Exec`. -/
def shoesStatement : String := "INSERT INTO shoes (name) VALUES;"

/-- The statement text `InsertTrueToSizes` hands to `Exec`. -/
def trueToSizesStatement : String := "INSERT INTO truetosize (truetosize) VALUES;"

/-- The text `SelectTrueToSize` hands to `Query` for an `int` identifier. -/
def byIdStatement : String := selectBase ++ selectByIdTail

/-- The text `SelectTrueToSize` hands to `Query` for a `string` identifier. -/
def byNameStatement : String := selectBase ++ selectByNameTail

/-- The cursor events of `n` rows decoded one after the other. -/
def rowEvents : Nat → List Event
  | 0 => []
  | n + 1 => Event.next :: Event.scan [Dest.intPtr] :: rowEvents n

/-- A script of five rows whose fourth fails to decode. -/
def fourthRowFails : Script :=
  { pending := [Except.ok 1, Except.ok 3, Except.ok 4, Except.error (GoError.store "decode"),
      Except.ok 1],
    final := none, current := none, released := 0 }

/-- A script of two rows after which the cursor reports a failure. -/
def failsAfterRows : Script :=
  { pending := [Except.ok 2, Except.ok 5], final := some (GoError.store "iteration"),
    current := none, released := 0 }

/-- The IEEE-754 bit pattern of the `float64` value 1.1. -/
def float64OnePointOne : Nat := 0x3FF199999999999A

/-! ## Lemmas on the row loop -/

/-- With more fuel than rows, the loop over a cursor that yields `rs` and ends
as `en` returns `loopResult`, leaves the cursor where the iteration ended and
produces exactly `loopTrace`. -/
theorem scanLoop_of_yields {σ : Type} (rows : Rower σ) {s t : σ} {rs : List Int} {en : Ending}
    (h : Yields rows s rs en t) :
    ∀ (acc : List Int) (fuel : Nat), rs.length < fuel →
      scanLoop rows fuel s acc =
        { result := some (loopResult (acc ++ rs) en), world := t,
          trace := loopTrace rs.length en } := by
  induction h with
  | done hn he =>
    intro acc fuel hf
    obtain ⟨k, rfl⟩ : ∃ k, fuel = k + 1 := ⟨fuel - 1, by simp at hf; omega⟩
    simp [scanLoop, hn, he, loopResult, loopTrace]
  | iterFailed hn he =>
    intro acc fuel hf
    obtain ⟨k, rfl⟩ : ∃ k, fuel = k + 1 := ⟨fuel - 1, by simp at hf; omega⟩
    simp [scanLoop, hn, he, loopResult, loopTrace]
  | scanFailed hn hs =>
    intro acc fuel hf
    obtain ⟨k, rfl⟩ : ∃ k, fuel = k + 1 := ⟨fuel - 1, by simp at hf; omega⟩
    simp [scanLoop, hn, hs, loopResult, loopTrace]
  | @row _ _ _ _ st _ _ hn hs _ ih =>
    intro acc fuel hf
    obtain ⟨k, rfl⟩ : ∃ k, fuel = k + 1 := ⟨fuel - 1, by simp at hf; omega⟩
    have hk := ih (acc ++ [st.getD 0]) k (by simp at hf; omega)
    simp [scanLoop, hn, hs, hk, loopTrace]

/-- The loop makes no `Query` call. -/
theorem queryCalls_scanLoop {σ : Type} (rows : Rower σ) :
    ∀ (fuel : Nat) (s : σ) (acc : List Int), queryCalls (scanLoop rows fuel s acc).trace = [] := by
  intro fuel
  induction fuel with
  | zero => intro s acc; simp [scanLoop, queryCalls]
  | succ k ih =>
    intro s acc
    unfold scanLoop
    split
    · split
      · simp [queryCalls]
      · simp [queryCalls, ih]
    · split <;> simp [queryCalls]

/-- The loop itself never calls `Close`. -/
theorem closeCount_scanLoop {σ : Type} (rows : Rower σ) :
    ∀ (fuel : Nat) (s : σ) (acc : List Int), closeCount (scanLoop rows fuel s acc).trace = 0 := by
  intro fuel
  induction fuel with
  | zero => intro s acc; simp [scanLoop, closeCount]
  | succ k ih =>
    intro s acc
    unfold scanLoop
    split
    · split
      · simp [closeCount]
      · simp [closeCount, ih]
    · split <;> simp [closeCount]

theorem queryCalls_append (a b : List Event) :
    queryCalls (a ++ b) = queryCalls a ++ queryCalls b := by
  induction a with
  | nil => simp [queryCalls]
  | cons x xs ih => cases x <;> simp [queryCalls, ih]

theorem closeCount_append (a b : List Event) :
    closeCount (a ++ b) = closeCount a + closeCount b := by
  induction a with
  | nil => simp [closeCount]
  | cons x xs ih => cases x <;> simp [closeCount, ih]; omega

theorem closeCount_loopTrace (n : Nat) (en : Ending) : closeCount (loopTrace n en) = 0 := by
  induction n with
  | zero => cases en <;> simp [loopTrace, closeCount]
  | succ k ih => simp [loopTrace, closeCount, ih]

theorem logged_append (a b : List Event) : logged (a ++ b) = logged a ++ logged b := by
  induction a with
  | nil => simp [logged]
  | cons x xs ih => cases x <;> simp [logged, ih]

theorem logged_loopTrace (n : Nat) (en : Ending) :
    logged (loopTrace n en) = en.failure.toList := by
  induction n with
  | zero => cases en <;> simp [loopTrace, logged, Ending.failure]
  | succ k ih => simp [loopTrace, logged, ih]

/-- The outcome of `SelectTrueToSize` once `Query` has returned a cursor that
yields `rs` and ends as `en`: for every fuel above the number of rows. -/
theorem select_of_yields {σ : Type} (db : Queryer σ) (identifier : Value) (q : String)
    (rows : Rower σ) (s s1 s2 : σ) (rs : List Int) (en : Ending)
    (hq : statementFor identifier = some q)
    (hquery : db.Query q [identifier] s = (Except.ok rows, s1))
    (hy : Yields rows s1 rs en s2) (fuel : Nat) (hf : rs.length < fuel) :
    SelectTrueToSize fuel db identifier s =
      { result := some (loopResult rs en), world := (rows.Close s2).2,
        trace := Event.query q [identifier] :: (loopTrace rs.length en ++ [Event.close]) } := by
  have h := scanLoop_of_yields rows hy [] fuel hf
  simp [SelectTrueToSize, hq, hquery, h, deferClose]

/-! ## Lemmas on the integer conversions -/

theorem wrapSigned_of_range (x : Int) (hlo : -(2 ^ 63) ≤ x) (hhi : x < 2 ^ 63) :
    wrapSigned 64 x = x := by
  unfold wrapSigned
  have h : (x + 2 ^ (64 - 1)) % 2 ^ 64 = x + 2 ^ (64 - 1) := by
    apply Int.emod_eq_of_lt <;> norm_num <;> omega
  rw [h]; ring

theorem toInt_toInt64_length (n : Nat) (h : (n : Int) < 2 ^ 63) :
    toInt (toInt64 (n : Int)) = (n : Int) := by
  have h0 : (0 : Int) ≤ (n : Int) := Int.ofNat_nonneg n
  unfold toInt toInt64
  rw [wrapSigned_of_range (n : Int) (by omega) h, wrapSigned_of_range (n : Int) (by omega) h]

/-! ## The insert operations -/

/-- C1: against `mockExecer`, which accepts every statement and reports one
affected row per positional argument, `InsertShoes` on a non-empty sequence of
N names and `InsertTrueToSizes` on a non-empty sequence of N ratings return
(N, no error).  N is a Go slice length, hence below 2^63. -/
theorem insert_count_on_mockExecer (shoes : List String) (trueToSizes : List Int)
    (hs : shoes ≠ []) (ht : trueToSizes ≠ [])
    (hsl : (shoes.length : Int) < 2 ^ 63) (htl : (trueToSizes.length : Int) < 2 ^ 63) :
    (InsertShoes mockExecer shoes ()).result = some ((shoes.length : Int), none) ∧
    (InsertTrueToSizes mockExecer trueToSizes ()).result =
      some ((trueToSizes.length : Int), none) := by
  have h1 : shoes.length ≠ 0 := by simpa using hs
  have h2 : trueToSizes.length ≠ 0 := by simpa using ht
  constructor
  · simp only [InsertShoes, h1, if_false, mockExecer, mockSqlResult, List.length_map]
    rw [toInt_toInt64_length _ hsl]
  · simp only [InsertTrueToSizes, h2, if_false, mockExecer, mockSqlResult, List.length_map]
    rw [toInt_toInt64_length _ htl]

theorem insert_count_on_mockExecer_witness :
    (InsertShoes mockExecer ["shoe_0", "shoe_1", "shoe_2", "shoe_3", "shoe_4"] ()).result =
      some (5, none) ∧
    (InsertTrueToSizes mockExecer [1, 2, 3] ()).result = some (3, none) :=
  insert_count_on_mockExecer ["shoe_0", "shoe_1", "shoe_2", "shoe_3", "shoe_4"] [1, 2, 3]
    (by decide) (by decide) (by decide) (by decide)

/-- C2: on an empty sequence `InsertShoes` returns (0, ErrZeroShoes) and
`InsertTrueToSizes` returns (0, ErrZeroTrueToSizes), for every write
capability; the trace holds no `Exec` call and the world is untouched. -/
theorem insert_empty_rejected {σ : Type} (db : Execer σ) (s : σ) :
    (InsertShoes db [] s).result = some (0, some GoError.ErrZeroShoes) ∧
    execCalls (InsertShoes db [] s).trace = [] ∧
    (InsertShoes db [] s).world = s ∧
    (InsertTrueToSizes db [] s).result = some (0, some GoError.ErrZeroTrueToSizes) ∧
    execCalls (InsertTrueToSizes db [] s).trace = [] ∧
    (InsertTrueToSizes db [] s).world = s := by
  simp [InsertShoes, InsertTrueToSizes, execCalls]

theorem shoesStatement_eq : "INSERT INTO shoes (name) VALUES" ++ ";" = shoesStatement := by
  decide

theorem trueToSizesStatement_eq :
    "INSERT INTO truetosize (truetosize) VALUES" ++ ";" = trueToSizesStatement := by
  decide

/-- C6: on a non-empty input, when `Exec` fails with `e`, or succeeds with a
result whose `RowsAffected` fails with `e`, `InsertShoes` and
`InsertTrueToSizes` return (0, e), the same `e`, and the trace holds exactly
one `Exec` call. -/
theorem insert_store_failure_surfaces {σ : Type} (db : Execer σ) (s s1 s2 : σ) (e : GoError)
    (res : SqlResult σ) (shoes : List String) (trueToSizes : List Int)
    (hs : shoes ≠ []) (ht : trueToSizes ≠ []) :
    (db.Exec shoesStatement (shoes.map Value.string) s = (Except.error e, s1) →
      (InsertShoes db shoes s).result = some (0, some e) ∧
      execCalls (InsertShoes db shoes s).trace =
        [(shoesStatement, shoes.map Value.string)]) ∧
    (db.Exec shoesStatement (shoes.map Value.string) s = (Except.ok res, s1) →
      res.RowsAffected s1 = (Except.error e, s2) →
      (InsertShoes db shoes s).result = some (0, some e) ∧
      execCalls (InsertShoes db shoes s).trace =
        [(shoesStatement, shoes.map Value.string)]) ∧
    (db.Exec trueToSizesStatement (trueToSizes.map Value.int) s = (Except.error e, s1) →
      (InsertTrueToSizes db trueToSizes s).result = some (0, some e) ∧
      execCalls (InsertTrueToSizes db trueToSizes s).trace =
        [(trueToSizesStatement, trueToSizes.map Value.int)]) ∧
    (db.Exec trueToSizesStatement (trueToSizes.map Value.int) s = (Except.ok res, s1) →
      res.RowsAffected s1 = (Except.error e, s2) →
      (InsertTrueToSizes db trueToSizes s).result = some (0, some e) ∧
      execCalls (InsertTrueToSizes db trueToSizes s).trace =
        [(trueToSizesStatement, trueToSizes.map Value.int)]) := by
  have h1 : shoes.length ≠ 0 := by simpa using hs
  have h2 : trueToSizes.length ≠ 0 := by simpa using ht
  refine ⟨?_, ?_, ?_, ?_⟩
  · intro hx
    simp [InsertShoes, h1, shoesStatement_eq, hx, execCalls]
  · intro hx hr
    simp [InsertShoes, h1, shoesStatement_eq, hx, hr, execCalls]
  · intro hx
    simp [InsertTrueToSizes, h2, trueToSizesStatement_eq, hx, execCalls]
  · intro hx hr
    simp [InsertTrueToSizes, h2, trueToSizesStatement_eq, hx, hr, execCalls]

theorem insert_store_failure_surfaces_witness :
    ((InsertShoes (failingExecer (GoError.store "down")) ["shoe_0", "shoe_1"] ()).result =
        some (0, some (GoError.store "down")) ∧
      execCalls (InsertShoes (failingExecer (GoError.store "down")) ["shoe_0", "shoe_1"] ()).trace =
        [(shoesStatement, [Value.string "shoe_0", Value.string "shoe_1"])]) ∧
    ((InsertTrueToSizes (failingResultExecer (GoError.store "count")) [4, 5] ()).result =
        some (0, some (GoError.store "count")) ∧
      execCalls (InsertTrueToSizes (failingResultExecer (GoError.store "count")) [4, 5] ()).trace =
        [(trueToSizesStatement, [Value.int 4, Value.int 5])]) :=
  ⟨(insert_store_failure_surfaces (failingExecer (GoError.store "down")) () () ()
      (GoError.store "down") (mockSqlResult 0 0) ["shoe_0", "shoe_1"] [4, 5]
      (by decide) (by decide)).1 rfl,
   (insert_store_failure_surfaces (failingResultExecer (GoError.store "count")) () () ()
      (GoError.store "count")
      { LastInsertId := fun t => (Except.error (GoError.store "count"), t),
        RowsAffected := fun t => (Except.error (GoError.store "count"), t) }
      ["shoe_0", "shoe_1"] [4, 5] (by decide) (by decide)).2.2.2 rfl rfl⟩

/-! ## The lookup operation -/

theorem statementFor_int (n : Int) : statementFor (Value.int n) = some byIdStatement := rfl

theorem statementFor_string (name : String) :
    statementFor (Value.string name) = some byNameStatement := rfl

theorem statementFor_none (identifier : Value) (hint : ∀ n, identifier ≠ Value.int n)
    (hstr : ∀ name, identifier ≠ Value.string name) : statementFor identifier = none := by
  cases identifier with
  | int n => exact absurd rfl (hint n)
  | string name => exact absurd rfl (hstr name)
  | float64 b => rfl
  | other ty => rfl
  | nil => rfl

theorem loopTrace_eq_rowEvents (n : Nat) (en : Ending) :
    loopTrace n en = rowEvents n ++ loopTrace 0 en := by
  induction n with
  | zero => simp [rowEvents]
  | succ k ih => simp [loopTrace, rowEvents, ih]

/-- When the call has returned, the deferred `Close` is the last event and the
only `Close` of the loop's trace. -/
theorem deferClose_trace {σ : Type} (rows : Rower σ) (fuel : Nat) (s : σ)
    (h : (deferClose rows (scanLoop rows fuel s [])).result ≠ none) :
    (deferClose rows (scanLoop rows fuel s [])).trace =
      (scanLoop rows fuel s []).trace ++ [Event.close] := by
  unfold deferClose at h ⊢
  split
  · rename_i hres
    simp [hres] at h
  · rfl

/-- C3: for an identifier whose dynamic type is neither `int` nor `string`, and
every read capability, `SelectTrueToSize` returns (nil,
ErrIdentifierInvalidType); the trace holds the log record only, so `Query` is
never invoked, and the world is untouched. -/
theorem select_rejects_other_types {σ : Type} (db : Queryer σ) (identifier : Value) (s : σ)
    (fuel : Nat) (hint : ∀ n, identifier ≠ Value.int n)
    (hstr : ∀ name, identifier ≠ Value.string name) :
    (SelectTrueToSize fuel db identifier s).result =
      some (none, some GoError.ErrIdentifierInvalidType) ∧
    queryCalls (SelectTrueToSize fuel db identifier s).trace = [] ∧
    (SelectTrueToSize fuel db identifier s).trace =
      [Event.log GoError.ErrIdentifierInvalidType] ∧
    (SelectTrueToSize fuel db identifier s).world = s := by
  simp [SelectTrueToSize, statementFor_none identifier hint hstr, queryCalls]

theorem select_rejects_other_types_witness :
    (SelectTrueToSize 0 mockQueryer (Value.float64 float64OnePointOne)
        ⟨none, [], 0⟩).result = some (none, some GoError.ErrIdentifierInvalidType) ∧
    queryCalls (SelectTrueToSize 0 mockQueryer (Value.float64 float64OnePointOne)
        ⟨none, [], 0⟩).trace = [] ∧
    (SelectTrueToSize 0 mockQueryer (Value.float64 float64OnePointOne)
        ⟨none, [], 0⟩).trace = [Event.log GoError.ErrIdentifierInvalidType] ∧
    (SelectTrueToSize 0 mockQueryer (Value.float64 float64OnePointOne)
        ⟨none, [], 0⟩).world = ⟨none, [], 0⟩ :=
  select_rejects_other_types mockQueryer (Value.float64 float64OnePointOne) ⟨none, [], 0⟩ 0
    (by intro n h; cases h) (by intro n h; cases h)

/-- C4: for an `int` or `string` identifier (one with a statement `q`), when
`Query` returns a cursor that yields the rows `rs` with every `Scan` succeeding
and `Err` reporting no failure, `SelectTrueToSize` returns exactly `rs`, in
the order the cursor yielded them, and no error, for every fuel above the
number of rows. -/
theorem select_returns_rows_in_order {σ : Type} (db : Queryer σ) (identifier : Value)
    (q : String) (rows : Rower σ) (s s1 s2 : σ) (rs : List Int)
    (hq : statementFor identifier = some q)
    (hquery : db.Query q [identifier] s = (Except.ok rows, s1))
    (hy : Yields rows s1 rs Ending.done s2) (fuel : Nat) (hf : rs.length < fuel) :
    (SelectTrueToSize fuel db identifier s).result = some (some rs, none) := by
  rw [select_of_yields db identifier q rows s s1 s2 rs Ending.done hq hquery hy fuel hf]
  rfl

/-- The mock cursor over `defTrueToSizeSet` yields 1, 3, 4, 1 and ends well. -/
theorem mockRowerInt_yields :
    Yields mockRowerInt ⟨none, defTrueToSizeSet, 0⟩ [1, 3, 4, 1] Ending.done ⟨none, [], 1⟩ :=
  @Yields.row _ mockRowerInt ⟨none, [1, 3, 4, 1], 0⟩ ⟨none, [3, 4, 1], 1⟩ ⟨none, [3, 4, 1], 1⟩
    ⟨none, [], 1⟩ (some 1) [3, 4, 1] Ending.done rfl rfl
  (@Yields.row _ mockRowerInt ⟨none, [3, 4, 1], 1⟩ ⟨none, [4, 1], 3⟩ ⟨none, [4, 1], 3⟩
    ⟨none, [], 1⟩ (some 3) [4, 1] Ending.done rfl rfl
  (@Yields.row _ mockRowerInt ⟨none, [4, 1], 3⟩ ⟨none, [1], 4⟩ ⟨none, [1], 4⟩
    ⟨none, [], 1⟩ (some 4) [1] Ending.done rfl rfl
  (@Yields.row _ mockRowerInt ⟨none, [1], 4⟩ ⟨none, [], 1⟩ ⟨none, [], 1⟩
    ⟨none, [], 1⟩ (some 1) [] Ending.done rfl rfl
  (@Yields.done _ mockRowerInt ⟨none, [], 1⟩ ⟨none, [], 1⟩ ⟨none, [], 1⟩ rfl rfl))))

theorem select_returns_rows_in_order_witness :
    (SelectTrueToSize 5 mockQueryer (Value.int 1) ⟨none, [], 0⟩).result =
      some (some [1, 3, 4, 1], none) ∧
    (SelectTrueToSize 5 mockQueryer (Value.string "shoe_1") ⟨none, [], 0⟩).result =
      some (some [1, 3, 4, 1], none) :=
  ⟨select_returns_rows_in_order mockQueryer (Value.int 1) byIdStatement mockRowerInt
      ⟨none, [], 0⟩ ⟨none, defTrueToSizeSet, 0⟩ ⟨none, [], 1⟩ [1, 3, 4, 1] rfl rfl
      mockRowerInt_yields 5 (by decide),
   select_returns_rows_in_order mockQueryer (Value.string "shoe_1") byNameStatement mockRowerInt
      ⟨none, [], 0⟩ ⟨none, defTrueToSizeSet, 0⟩ ⟨none, [], 1⟩ [1, 3, 4, 1] rfl rfl
      mockRowerInt_yields 5 (by decide)⟩

/-- C5: for every read capability and every fuel, `SelectTrueToSize` makes
exactly one `Query` call, with the identifier as its only argument, and the
statement text depends on the identifier's type alone: every `int` gets
`byIdStatement`, which ends with the shoe-id filter and holds no JOIN, and
every `string` gets `byNameStatement`, which holds the inner join on
t.shoes_id = s.id and the filter on s.name. -/
theorem select_queries_once_by_type {σ : Type} (db : Queryer σ) (s : σ) (fuel : Nat) :
    (∀ n : Int, queryCalls (SelectTrueToSize fuel db (Value.int n) s).trace =
      [(byIdStatement, [Value.int n])]) ∧
    (∀ name : String, queryCalls (SelectTrueToSize fuel db (Value.string name) s).trace =
      [(byNameStatement, [Value.string name])]) ∧
    endsWith "WHERE shoes_id = ?" byIdStatement = true ∧
    occursIn "JOIN" byIdStatement = false ∧
    occursIn "INNER JOIN shoes s" byNameStatement = true ∧
    occursIn "ON (t.shoes_id = s.id)" byNameStatement = true ∧
    occursIn "WHERE s.name = ?" byNameStatement = true := by
  have key : ∀ (identifier : Value) (q : String), statementFor identifier = some q →
      queryCalls (SelectTrueToSize fuel db identifier s).trace = [(q, [identifier])] := by
    intro identifier q hq
    simp only [SelectTrueToSize, hq]
    split
    · simp [queryCalls]
    · rename_i rows s1 _
      have hloop := queryCalls_scanLoop rows fuel s1 []
      simp only [queryCalls, deferClose]
      split
      · simp [hloop]
      · simp [queryCalls_append, hloop, queryCalls]
  refine ⟨fun n => key _ _ (statementFor_int n), fun name => key _ _ (statementFor_string name),
    ?_, ?_, ?_, ?_, ?_⟩ <;> decide

/-- The scripted cursor over `fourthRowFails` decodes 1, 3, 4 and fails on the
fourth row, leaving the fifth unread. -/
theorem fourthRowFails_yields :
    Yields scriptRower fourthRowFails [1, 3, 4] (Ending.scanFailed (GoError.store "decode"))
      ⟨[Except.ok 1], none, some (Except.error (GoError.store "decode")), 0⟩ :=
  @Yields.row _ scriptRower fourthRowFails
    ⟨[Except.ok 3, Except.ok 4, Except.error (GoError.store "decode"), Except.ok 1], none,
      some (Except.ok 1), 0⟩
    ⟨[Except.ok 3, Except.ok 4, Except.error (GoError.store "decode"), Except.ok 1], none,
      some (Except.ok 1), 0⟩
    ⟨[Except.ok 1], none, some (Except.error (GoError.store "decode")), 0⟩
    (some 1) [3, 4] (Ending.scanFailed (GoError.store "decode")) rfl rfl
  (@Yields.row _ scriptRower
    ⟨[Except.ok 3, Except.ok 4, Except.error (GoError.store "decode"), Except.ok 1], none,
      some (Except.ok 1), 0⟩
    ⟨[Except.ok 4, Except.error (GoError.store "decode"), Except.ok 1], none,
      some (Except.ok 3), 0⟩
    ⟨[Except.ok 4, Except.error (GoError.store "decode"), Except.ok 1], none,
      some (Except.ok 3), 0⟩
    ⟨[Except.ok 1], none, some (Except.error (GoError.store "decode")), 0⟩
    (some 3) [4] (Ending.scanFailed (GoError.store "decode")) rfl rfl
  (@Yields.row _ scriptRower
    ⟨[Except.ok 4, Except.error (GoError.store "decode"), Except.ok 1], none,
      some (Except.ok 3), 0⟩
    ⟨[Except.error (GoError.store "decode"), Except.ok 1], none, some (Except.ok 4), 0⟩
    ⟨[Except.error (GoError.store "decode"), Except.ok 1], none, some (Except.ok 4), 0⟩
    ⟨[Except.ok 1], none, some (Except.error (GoError.store "decode")), 0⟩
    (some 4) [] (Ending.scanFailed (GoError.store "decode")) rfl rfl
  (@Yields.scanFailed _ scriptRower
    ⟨[Except.error (GoError.store "decode"), Except.ok 1], none, some (Except.ok 4), 0⟩
    ⟨[Except.ok 1], none, some (Except.error (GoError.store "decode")), 0⟩
    ⟨[Except.ok 1], none, some (Except.error (GoError.store "decode")), 0⟩
    (GoError.store "decode") none rfl rfl)))

/-- The scripted cursor over `failsAfterRows` decodes 2, 5 and then reports its
failure through `Err`. -/
theorem failsAfterRows_yields :
    Yields scriptRower failsAfterRows [2, 5] (Ending.iterFailed (GoError.store "iteration"))
      ⟨[], some (GoError.store "iteration"), some (Except.ok 5), 0⟩ :=
  @Yields.row _ scriptRower failsAfterRows
    ⟨[Except.ok 5], some (GoError.store "iteration"), some (Except.ok 2), 0⟩
    ⟨[Except.ok 5], some (GoError.store "iteration"), some (Except.ok 2), 0⟩
    ⟨[], some (GoError.store "iteration"), some (Except.ok 5), 0⟩
    (some 2) [5] (Ending.iterFailed (GoError.store "iteration")) rfl rfl
  (@Yields.row _ scriptRower
    ⟨[Except.ok 5], some (GoError.store "iteration"), some (Except.ok 2), 0⟩
    ⟨[], some (GoError.store "iteration"), some (Except.ok 5), 0⟩
    ⟨[], some (GoError.store "iteration"), some (Except.ok 5), 0⟩
    ⟨[], some (GoError.store "iteration"), some (Except.ok 5), 0⟩
    (some 5) [] (Ending.iterFailed (GoError.store "iteration")) rfl rfl
  (@Yields.iterFailed _ scriptRower
    ⟨[], some (GoError.store "iteration"), some (Except.ok 5), 0⟩
    ⟨[], some (GoError.store "iteration"), some (Except.ok 5), 0⟩
    ⟨[], some (GoError.store "iteration"), some (Except.ok 5), 0⟩
    (GoError.store "iteration") rfl rfl))

/-- C7: for an `int` or `string` identifier (one with a statement `q`):
when `Query` fails with `e`; when `Scan` fails with `e` on the row after
`rs.length` rows were decoded; when `Err` reports `e` after the last row; then
`SelectTrueToSize` returns (nil, e), the same `e`, and the decoded rows are
dropped.  After a failing `Scan` the trace holds the log record and the
`Close` only: no further `Next` or `Scan`. -/
theorem select_failure_surfaces {σ : Type} (db : Queryer σ) (identifier : Value) (q : String)
    (rows : Rower σ) (s s1 s2 : σ) (rs : List Int) (e : GoError)
    (hq : statementFor identifier = some q) :
    (db.Query q [identifier] s = (Except.error e, s1) → ∀ fuel : Nat,
      (SelectTrueToSize fuel db identifier s).result = some (none, some e) ∧
      (SelectTrueToSize fuel db identifier s).trace =
        [Event.query q [identifier], Event.log e]) ∧
    (db.Query q [identifier] s = (Except.ok rows, s1) →
      Yields rows s1 rs (Ending.scanFailed e) s2 → ∀ fuel : Nat, rs.length < fuel →
      (SelectTrueToSize fuel db identifier s).result = some (none, some e) ∧
      (SelectTrueToSize fuel db identifier s).trace =
        Event.query q [identifier] :: (rowEvents rs.length ++
          [Event.next, Event.scan [Dest.intPtr], Event.log e, Event.close]) ∧
      (SelectTrueToSize fuel db identifier s).world = (rows.Close s2).2) ∧
    (db.Query q [identifier] s = (Except.ok rows, s1) →
      Yields rows s1 rs (Ending.iterFailed e) s2 → ∀ fuel : Nat, rs.length < fuel →
      (SelectTrueToSize fuel db identifier s).result = some (none, some e) ∧
      (SelectTrueToSize fuel db identifier s).trace =
        Event.query q [identifier] :: (rowEvents rs.length ++
          [Event.next, Event.err, Event.log e, Event.close]) ∧
      (SelectTrueToSize fuel db identifier s).world = (rows.Close s2).2) := by
  refine ⟨?_, ?_, ?_⟩
  · intro hquery fuel
    simp [SelectTrueToSize, hq, hquery]
  · intro hquery hy fuel hf
    rw [select_of_yields db identifier q rows s s1 s2 rs _ hq hquery hy fuel hf]
    simp [loopResult, loopTrace_eq_rowEvents rs.length, loopTrace]
  · intro hquery hy fuel hf
    rw [select_of_yields db identifier q rows s s1 s2 rs _ hq hquery hy fuel hf]
    simp [loopResult, loopTrace_eq_rowEvents rs.length, loopTrace]

theorem select_failure_surfaces_witness :
    (SelectTrueToSize 0 (failingQueryer (GoError.store "down")) (Value.int 7) ()).result =
      some (none, some (GoError.store "down")) ∧
    ((SelectTrueToSize 9 scriptQueryer (Value.string "shoe_1") fourthRowFails).result =
        some (none, some (GoError.store "decode")) ∧
      (SelectTrueToSize 9 scriptQueryer (Value.string "shoe_1") fourthRowFails).trace =
        Event.query byNameStatement [Value.string "shoe_1"] :: (rowEvents 3 ++
          [Event.next, Event.scan [Dest.intPtr], Event.log (GoError.store "decode"),
            Event.close])) ∧
    (SelectTrueToSize 3 scriptQueryer (Value.int 7) failsAfterRows).result =
      some (none, some (GoError.store "iteration")) :=
  ⟨((select_failure_surfaces (failingQueryer (GoError.store "down")) (Value.int 7)
      byIdStatement emptyRower () () () [] (GoError.store "down") rfl).1 rfl 0).1,
   ⟨((select_failure_surfaces scriptQueryer (Value.string "shoe_1") byNameStatement scriptRower
      fourthRowFails fourthRowFails _ [1, 3, 4] (GoError.store "decode") rfl).2.1 rfl
      fourthRowFails_yields 9 (by decide)).1,
    ((select_failure_surfaces scriptQueryer (Value.string "shoe_1") byNameStatement scriptRower
      fourthRowFails fourthRowFails _ [1, 3, 4] (GoError.store "decode") rfl).2.1 rfl
      fourthRowFails_yields 9 (by decide)).2.1⟩,
   ((select_failure_surfaces scriptQueryer (Value.int 7) byIdStatement scriptRower
      failsAfterRows failsAfterRows _ [2, 5] (GoError.store "iteration") rfl).2.2 rfl
      failsAfterRows_yields 3 (by decide)).1⟩

/-- C8: when `Query` returns a cursor, every call of `SelectTrueToSize` that
has returned holds exactly one `Close` in its trace, and it is the last event,
after every `Next`, `Scan` and `Err`; and over a cursor that yields `rs` and
ends in any of the three ways the call does return, for every fuel above the
number of rows, leaving the world as one `Close` leaves the state in which the
iteration ended. -/
theorem select_closes_cursor_once {σ : Type} (db : Queryer σ) (identifier : Value) (q : String)
    (rows : Rower σ) (s s1 : σ) (hq : statementFor identifier = some q)
    (hquery : db.Query q [identifier] s = (Except.ok rows, s1)) :
    (∀ fuel : Nat, (SelectTrueToSize fuel db identifier s).result ≠ none →
      closeCount (SelectTrueToSize fuel db identifier s).trace = 1 ∧
      ∃ before : List Event,
        (SelectTrueToSize fuel db identifier s).trace = before ++ [Event.close] ∧
        closeCount before = 0) ∧
    (∀ (rs : List Int) (en : Ending) (s2 : σ), Yields rows s1 rs en s2 →
      ∀ fuel : Nat, rs.length < fuel →
        (SelectTrueToSize fuel db identifier s).result = some (loopResult rs en) ∧
        (SelectTrueToSize fuel db identifier s).world = (rows.Close s2).2 ∧
        (SelectTrueToSize fuel db identifier s).trace =
          Event.query q [identifier] :: (loopTrace rs.length en ++ [Event.close])) := by
  constructor
  · intro fuel hret
    have hres : (deferClose rows (scanLoop rows fuel s1 [])).result ≠ none := by
      simpa [SelectTrueToSize, hq, hquery] using hret
    have htr := deferClose_trace rows fuel s1 hres
    have hloop := closeCount_scanLoop rows fuel s1 []
    have hsel : (SelectTrueToSize fuel db identifier s).trace =
        (Event.query q [identifier] :: (scanLoop rows fuel s1 []).trace) ++ [Event.close] := by
      simp [SelectTrueToSize, hq, hquery, htr]
    refine ⟨?_, Event.query q [identifier] :: (scanLoop rows fuel s1 []).trace, hsel, ?_⟩
    · rw [hsel, closeCount_append]
      simp [closeCount, hloop]
    · simp [closeCount, hloop]
  · intro rs en s2 hy fuel hf
    rw [select_of_yields db identifier q rows s s1 s2 rs en hq hquery hy fuel hf]
    exact ⟨rfl, rfl, rfl⟩

theorem select_closes_cursor_once_witness :
    (closeCount (SelectTrueToSize 9 scriptQueryer (Value.int 7) fourthRowFails).trace = 1 ∧
      ∃ before : List Event,
        (SelectTrueToSize 9 scriptQueryer (Value.int 7) fourthRowFails).trace =
          before ++ [Event.close] ∧ closeCount before = 0) ∧
    ((SelectTrueToSize 9 scriptQueryer (Value.int 7) fourthRowFails).result =
        some (none, some (GoError.store "decode")) ∧
      (SelectTrueToSize 9 scriptQueryer (Value.int 7) fourthRowFails).world.released = 1) :=
  ⟨(select_closes_cursor_once scriptQueryer (Value.int 7) byIdStatement scriptRower
      fourthRowFails fourthRowFails rfl rfl).1 9 (by decide),
   ⟨((select_closes_cursor_once scriptQueryer (Value.int 7) byIdStatement scriptRower
      fourthRowFails fourthRowFails rfl rfl).2 [1, 3, 4] (Ending.scanFailed (GoError.store "decode"))
      _ fourthRowFails_yields 9 (by decide)).1,
    congrArg Script.released ((select_closes_cursor_once scriptQueryer (Value.int 7)
      byIdStatement scriptRower fourthRowFails fourthRowFails rfl rfl).2 [1, 3, 4]
      (Ending.scanFailed (GoError.store "decode")) _ fourthRowFails_yields 9 (by decide)).2.1⟩⟩

/-! ## What is logged, and what is executed, on the other paths -/

/-- Every path of `InsertTrueToSizes` logs exactly the failure it returns. -/
theorem insertTrueToSizes_logs_returned {σ : Type} (db : Execer σ) (trueToSizes : List Int)
    (s : σ) :
    logged (InsertTrueToSizes db trueToSizes s).trace =
      returnedFailure (InsertTrueToSizes db trueToSizes s) := by
  unfold InsertTrueToSizes
  split
  · simp [logged, returnedFailure]
  · simp only []
    split
    · simp [logged, returnedFailure]
    · split <;> simp [logged, returnedFailure]

/-- On a non-empty input every path of `InsertShoes` logs exactly the failure it
returns. -/
theorem insertShoes_logs_returned {σ : Type} (db : Execer σ) (shoes : List String) (s : σ)
    (hs : shoes ≠ []) :
    logged (InsertShoes db shoes s).trace = returnedFailure (InsertShoes db shoes s) := by
  have h1 : shoes.length ≠ 0 := by simpa using hs
  unfold InsertShoes
  rw [if_neg h1]
  simp only []
  split
  · simp [logged, returnedFailure]
  · split <;> simp [logged, returnedFailure]

/-- The row loop logs exactly the failure it returns. -/
theorem scanLoop_logs_returned {σ : Type} (rows : Rower σ) :
    ∀ (fuel : Nat) (s : σ) (acc : List Int),
      logged (scanLoop rows fuel s acc).trace = returnedFailure (scanLoop rows fuel s acc) := by
  intro fuel
  induction fuel with
  | zero => intro s acc; simp [scanLoop, logged, returnedFailure]
  | succ k ih =>
    intro s acc
    unfold scanLoop
    split
    · split
      · simp [logged, returnedFailure]
      · have h := ih
        simp only [logged, returnedFailure] at h ⊢
        exact h _ _
    · split <;> simp [logged, returnedFailure]

/-- Every path of `SelectTrueToSize` logs exactly the failure it returns. -/
theorem select_logs_returned {σ : Type} (db : Queryer σ) (identifier : Value) (s : σ)
    (fuel : Nat) :
    logged (SelectTrueToSize fuel db identifier s).trace =
      returnedFailure (SelectTrueToSize fuel db identifier s) := by
  unfold SelectTrueToSize
  split
  · simp [logged, returnedFailure]
  · split
    · simp [logged, returnedFailure]
    · rename_i rows s1 _
      have h := scanLoop_logs_returned rows fuel s1 []
      simp only [logged, deferClose]
      split
      · simpa [returnedFailure] using h
      · rw [logged_append]
        simpa [returnedFailure, logged] using h

/-- On a non-empty input `InsertShoes` makes one `Exec` call: the fixed text
`shoesStatement`, with the names as arguments in input order. -/
theorem insertShoes_exec_call {σ : Type} (db : Execer σ) (shoes : List String) (s : σ)
    (hs : shoes ≠ []) :
    execCalls (InsertShoes db shoes s).trace = [(shoesStatement, shoes.map Value.string)] := by
  have h1 : shoes.length ≠ 0 := by simpa using hs
  unfold InsertShoes
  rw [if_neg h1]
  simp only [shoesStatement_eq]
  split
  · simp [execCalls]
  · split <;> simp [execCalls]

/-- On a non-empty input `InsertTrueToSizes` makes one `Exec` call: the fixed
text `trueToSizesStatement`, with the ratings as arguments in input order. -/
theorem insertTrueToSizes_exec_call {σ : Type} (db : Execer σ) (trueToSizes : List Int) (s : σ)
    (ht : trueToSizes ≠ []) :
    execCalls (InsertTrueToSizes db trueToSizes s).trace =
      [(trueToSizesStatement, trueToSizes.map Value.int)] := by
  have h1 : trueToSizes.length ≠ 0 := by simpa using ht
  unfold InsertTrueToSizes
  rw [if_neg h1]
  simp only [trueToSizesStatement_eq]
  split
  · simp [execCalls]
  · split <;> simp [execCalls]

/-! ## Where the code departs from its specification -/

/-- C9: on two names, and on two ratings, the text handed to `Exec` is the bare
`INSERT ... VALUES;` with the arguments in input order: the joined placeholder
list is thrown away, so the text holds no `(?)` group and no `?` at all,
where two groups were to be. -/
theorem insert_statement_lacks_placeholders :
    (InsertShoes mockExecer ["shoe_0", "shoe_1"] ()).trace =
      [Event.exec "INSERT INTO shoes (name) VALUES;"
        [Value.string "shoe_0", Value.string "shoe_1"], Event.rowsAffected] ∧
    (InsertTrueToSizes mockExecer [4, 2] ()).trace =
      [Event.exec "INSERT INTO truetosize (truetosize) VALUES;" [Value.int 4, Value.int 2],
        Event.rowsAffected] ∧
    occurrences "(?)" "INSERT INTO shoes (name) VALUES;" = 0 ∧
    occurrences "?" "INSERT INTO shoes (name) VALUES;" = 0 ∧
    occurrences "(?)" "INSERT INTO truetosize (truetosize) VALUES;" = 0 ∧
    occurrences "?" "INSERT INTO truetosize (truetosize) VALUES;" = 0 ∧
    stringsJoin (List.replicate 2 "(?)") "," = "(?),(?)" := by
  refine ⟨?_, ?_, ?_, ?_, ?_, ?_, ?_⟩ <;> decide

/-- C10: on an empty input `InsertShoes` returns ErrZeroShoes and writes one log
record, which is ErrZeroTrueToSizes, another error; its sibling
`InsertTrueToSizes` logs the error it returns. -/
theorem insertShoes_logs_other_error :
    (InsertShoes mockExecer [] ()).result = some (0, some GoError.ErrZeroShoes) ∧
    logged (InsertShoes mockExecer [] ()).trace = [GoError.ErrZeroTrueToSizes] ∧
    GoError.ErrZeroTrueToSizes ≠ GoError.ErrZeroShoes ∧
    (InsertTrueToSizes mockExecer [] ()).result = some (0, some GoError.ErrZeroTrueToSizes) ∧
    logged (InsertTrueToSizes mockExecer [] ()).trace = [GoError.ErrZeroTrueToSizes] := by
  refine ⟨?_, ?_, ?_, ?_, ?_⟩ <;> decide

end shoesdb
